import Mathlib

/-!
Shallow embedding of `src/wireguard.rs` (gimmewire): the peer-provisioning
workflow of a WireGuard front end.  Pure data (the `Peer` record, the address
pool, the allocation function `get_ip`, the rendered INI document) is embedded
as Lean functions translated line by line from the Rust source; the effectful
boundary (subprocess spawn/wait, stdin writes, the filesystem write of a
config artifact, the home directory lookup) is embedded by passing an explicit
environment record describing the outcome each external call would have had,
and the result of a Rust function that can return `Err`, return `Ok` or panic
is an `Outcome`: `Outcome.panic` models a Rust `panic!` / `.unwrap()` on
`None` (the thread halts), `Outcome.err` models an `Err(SimpleError)` value
returned to the caller, `Outcome.ok` a normal return.
-/

/-- Embedding of `std::net::Ipv4Addr` as four octets (`Ipv4Addr::new(o1,o2,o3,o4)`).
Octets are `Nat`; the source only ever constructs octets below 256. -/
structure Ipv4Addr where
  o1 : Nat
  o2 : Nat
  o3 : Nat
  o4 : Nat
deriving DecidableEq, Repr

/-- `Ipv4Addr`'s `Display` (`to_string()` / `format!("{}")`): dotted decimal. -/
def Ipv4Addr.render (a : Ipv4Addr) : String :=
  toString a.o1 ++ "." ++ toString a.o2 ++ "." ++ toString a.o3 ++ "." ++ toString a.o4

/-- Embedding of the `Peer` struct (wireguard.rs lines 12-20).  `DateTime` is
opaque to every claim, embedded as a `Nat` timestamp. -/
structure Peer where
  user_id : Nat
  username : String
  public_key : Option String
  private_key : Option String
  ip : Option Ipv4Addr
  date : Nat
deriving DecidableEq, Repr

/-- The fixed address pool built by the two nested loops of `get_ip`
(wireguard.rs lines 129-133): `for i in 0..255 { for j in 2..255 {
ip_set.insert(Ipv4Addr::new(10, 0, i, j)) } }`.  The Rust code inserts into a
`HashSet`; since every inserted address is distinct (proved below in
`ipPool_nodup`) the set's contents are exactly this list's elements. -/
def ipPool : List Ipv4Addr :=
  (List.range 255).flatMap fun i =>
    (List.range' 2 253).map fun j => Ipv4Addr.mk 10 0 i j

/-- Embedding of `get_ip` (wireguard.rs lines 127-136).  The source computes
`ip_set.difference(&peers_ip_set).next().unwrap()`: the first element (in the
`HashSet`'s unspecified order; here the pool's construction order) of the pool
that is not among the peers' assigned addresses.  `.next()` on the difference
yields `None` exactly when the pool is covered, and the `.unwrap()` then
panics: we return an `Option` where `none` models that panic. -/
def get_ip (peers : List Peer) : Option Ipv4Addr :=
  let peers_ip_set := peers.filterMap Peer.ip
  ipPool.find? fun a => decide (a ∉ peers_ip_set)

theorem ipPool_nodup : ipPool.Nodup := by
  rw [ipPool, List.nodup_flatMap]
  refine ⟨?_, ?_⟩
  · intro i _
    refine List.Nodup.map ?_ (List.nodup_range' 2 253)
    intro j1 j2 h
    simpa [Ipv4Addr.mk.injEq] using h
  · refine List.Pairwise.imp ?_ (List.pairwise_lt_range 255)
    intro i1 i2 hlt a ha1 ha2
    simp only [Function.onFun, List.mem_map] at ha1 ha2
    obtain ⟨j1, _, rfl⟩ := ha1
    obtain ⟨j2, _, hj⟩ := ha2
    have : i2 = i1 := congrArg Ipv4Addr.o3 hj
    omega

theorem ipPool_length : ipPool.length = 64515 := by
  rw [ipPool, List.length_flatMap]
  simp only [Function.comp_def, List.length_map, List.length_range']
  rw [List.map_const', List.sum_replicate, List.length_range, smul_eq_mul]

theorem mem_ipPool_octets {a : Ipv4Addr} (h : a ∈ ipPool) :
    a.o1 = 10 ∧ a.o2 = 0 ∧ a.o3 ≤ 254 ∧ 2 ≤ a.o4 ∧ a.o4 ≤ 254 := by
  simp only [ipPool, List.mem_flatMap, List.mem_map, List.mem_range,
    List.mem_range'] at h
  obtain ⟨i, hi, j, ⟨k, hk, rfl⟩, rfl⟩ := h
  refine ⟨rfl, rfl, ?_, ?_, ?_⟩
  · show i ≤ 254
    omega
  · show 2 ≤ 2 + 1 * k
    omega
  · show 2 + 1 * k ≤ 254
    omega

/-- **C1.**  For every existing-address set smaller than the pool, `get_ip`
returns an address that is not in the existing set and lies in the fixed pool:
it is of the form `10.0.i.j` with `i ∈ 0..=254` and `j ∈ 2..=254`.  The
existing set is the set of `ip` fields of the known peers (the
`flat_map(|peer| peer.ip)` of the source); "smaller than the pool" is its
cardinality as a finite set being below the pool's 64515 = 255 * 253
addresses. -/
theorem get_ip_fresh_and_in_pool (peers : List Peer)
    (h : (peers.filterMap Peer.ip).toFinset.card < ipPool.length) :
    ∃ a, get_ip peers = some a ∧ a ∈ ipPool ∧ a ∉ peers.filterMap Peer.ip ∧
      a.o1 = 10 ∧ a.o2 = 0 ∧ a.o3 ≤ 254 ∧ 2 ≤ a.o4 ∧ a.o4 ≤ 254 := by
  have hpool : ∃ x ∈ ipPool, (decide (x ∉ peers.filterMap Peer.ip)) = true := by
    by_contra hc
    push_neg at hc
    have hsub : ipPool.toFinset ⊆ (peers.filterMap Peer.ip).toFinset := by
      intro a ha
      rw [List.mem_toFinset] at ha ⊢
      have := hc a ha
      simpa using this
    have hcard := Finset.card_le_card hsub
    rw [List.toFinset_card_of_nodup ipPool_nodup] at hcard
    omega
  have hsome : (ipPool.find? fun a => decide (a ∉ peers.filterMap Peer.ip)).isSome :=
    List.find?_isSome.mpr hpool
  obtain ⟨a, ha⟩ := Option.isSome_iff_exists.mp hsome
  have hmem := List.mem_of_find?_eq_some ha
  have hpa := List.find?_some ha
  have hnot : a ∉ peers.filterMap Peer.ip := of_decide_eq_true hpa
  obtain ⟨h1, h2, h3, h4, h5⟩ := mem_ipPool_octets hmem
  exact ⟨a, by simpa [get_ip] using ha, hmem, hnot, h1, h2, h3, h4, h5⟩

/-- A pool occupied at exactly one address, `10.0.0.2` (spec §8 scenario). -/
def peersOne : List Peer :=
  [{ user_id := 1, username := "alice", public_key := none, private_key := none,
     ip := some (Ipv4Addr.mk 10 0 0 2), date := 0 }]

/-- Witness for C1: a concrete one-peer state occupying `10.0.0.2`. -/
theorem get_ip_fresh_and_in_pool_witness :
    ∃ a, get_ip peersOne = some a ∧ a ∈ ipPool ∧ a ∉ peersOne.filterMap Peer.ip ∧
      a.o1 = 10 ∧ a.o2 = 0 ∧ a.o3 ≤ 254 ∧ 2 ≤ a.o4 ∧ a.o4 ≤ 254 :=
  get_ip_fresh_and_in_pool peersOne (by rw [ipPool_length]; decide)

/-- A peer record holding the given address (used to build a full-pool state). -/
def mkPoolPeer (a : Ipv4Addr) : Peer :=
  { user_id := 0, username := "u", public_key := none, private_key := none,
    ip := some a, date := 0 }

/-- A peer list occupying every address of the pool. -/
def fullPoolPeers : List Peer := ipPool.map mkPoolPeer

theorem fullPoolPeers_ips : fullPoolPeers.filterMap Peer.ip = ipPool := by
  rw [fullPoolPeers, List.filterMap_map]
  have : (Peer.ip ∘ mkPoolPeer) = some := by
    funext a; rfl
  rw [this, List.filterMap_some]

/-- **C2 (counterexample).**  On the fully-occupied pool `get_ip` does NOT
return a `PoolExhausted` error to its caller: the Rust function's return type
is plain `Ipv4Addr` (no `Result`), and `.next().unwrap()` on the empty set
difference panics.  In the embedding the panic is `none`: no error value
exists to be returned. -/
theorem get_ip_full_pool_counterexample : get_ip fullPoolPeers = none := by
  simp only [get_ip]
  rw [List.find?_eq_none]
  intro x hx
  simp [fullPoolPeers_ips, hx]

/-- **C2 (amended).**  When the existing addresses cover the entire pool,
`get_ip` panics (the `.unwrap()` of `ip_set.difference(..).next()` hits
`None`), halting the task, rather than returning a `PoolExhausted` error: the
function's type has no error channel at all. -/
theorem get_ip_exhausted_panics (peers : List Peer)
    (h : ∀ a ∈ ipPool, a ∈ peers.filterMap Peer.ip) :
    get_ip peers = none := by
  simp only [get_ip]
  rw [List.find?_eq_none]
  intro x hx
  simp [h x hx]

/-- Witness for the amended C2 at the concrete full-pool peer list. -/
theorem get_ip_exhausted_panics_witness : get_ip fullPoolPeers = none :=
  get_ip_exhausted_panics fullPoolPeers (by intro a ha; rw [fullPoolPeers_ips]; exact ha)

/-- Outcome of a Rust call that may return `Ok`, return `Err(SimpleError)`,
or panic.  `panic` models `panic!` and `.unwrap()`/`.expect()` on `None`:
the calling task halts and no value reaches the caller. -/
inductive Outcome (α : Type) where
  | ok : α → Outcome α
  | err : String → Outcome α
  | panic : String → Outcome α
deriving DecidableEq, Repr

/-- Captured output of a finished subprocess (`std::process::Output`):
exit status code and captured streams, decoded as strings. -/
structure ExecOutput where
  status : Int
  stdout : String
  stderr : String
deriving DecidableEq, Repr

/-- `ExitStatus::success()`: the process exited with status code 0. -/
def ExecOutput.success (o : ExecOutput) : Bool := o.status == 0

/-- Environment of one `Command::spawn()` + `child.wait()` invocation with no
captured output: `spawn` is the result of starting the executable (`error`
when it cannot be spawned), `wait` the result of waiting (`error` on a wait
error, otherwise the exit status code the child exited with). -/
structure CmdEnv where
  spawn : Except String Unit
  wait : Except String Int

/-- Environment of one piped invocation ending in `wait_with_output()`. -/
structure PipeEnv where
  spawn : Except String Unit
  wait : Except String ExecOutput

/-- Environment of `gen_keys`: its `wg genkey` and `wg pubkey` subprocesses
and the `write_all` to the pubkey child's stdin. -/
structure GenKeysEnv where
  genkey : PipeEnv
  pubkey : PipeEnv
  pubkeyStdinWrite : Except String Unit

/-- Embedding of Rust `str::trim`: strips leading and trailing whitespace.
Written over the character list so that it evaluates inside the kernel. -/
def rustTrim (s : String) : String :=
  String.mk (((s.data.dropWhile Char.isWhitespace).reverse.dropWhile
    Char.isWhitespace).reverse)

/-- Embedding of `gen_keys` (wireguard.rs lines 138-201).  Every failure is a
`panic!`; the non-panicking path returns the trimmed stdout of `wg genkey` as
the private key and the trimmed stdout of `wg pubkey` as the public key.
The wait-error arm of the pubkey process reuses the genkey wording, exactly
as in the source (line 184).  `Outcome.err` is never produced: the Rust
function returns a plain tuple, not a `Result`. -/
def gen_keys (env : GenKeysEnv) : Outcome (String × String) :=
  match env.genkey.spawn with
  | .error why => .panic ("Could not run wg genkey: " ++ why)
  | .ok () =>
  match env.genkey.wait with
  | .error why => .panic ("Could not run wg genkey: " ++ why)
  | .ok genkey_output =>
  if !genkey_output.success then
    .panic ("wg genkey finished with code " ++ genkey_output.stderr)
  else
  let private_key := genkey_output.stdout
  match env.pubkey.spawn with
  | .error why => .panic ("Could not run wg pubkey: " ++ why)
  | .ok () =>
  match env.pubkeyStdinWrite with
  | .error why => .panic ("Could not write to wg pubkey stdin: " ++ why)
  | .ok () =>
  match env.pubkey.wait with
  | .error why => .panic ("Could not run wg genkey: " ++ why)
  | .ok pubkey_output =>
  if !pubkey_output.success then
    .panic ("wg pubkey finished with code " ++ pubkey_output.stderr)
  else
  .ok (rustTrim private_key, rustTrim pubkey_output.stdout)

/-- An observable external step of `add_peer`, in the order the source
performs them: key generation, address allocation, and the
`wg set wg0 peer <public_key> allowed-ips <ip>/32` registration (recorded
when the register subprocess is successfully spawned, with the arguments the
source passes, taken from the freshly set `Peer` fields). -/
inductive Event where
  | keygen : String → String → Event
  | alloc : Ipv4Addr → Event
  | register : String → Ipv4Addr → Event
deriving DecidableEq, Repr

/-- Environment of one `add_peer` call: the `gen_keys` environment and the
register subprocess environment. -/
structure AddPeerEnv where
  keys : GenKeysEnv
  register : CmdEnv

/-- Embedding of `add_peer` (wireguard.rs lines 22-45).  `peers` is the list
`mongo.get_peers()` returned.  Returns the outcome delivered to the caller,
the peer as mutated in place, and the trace of external steps performed.  A
panic inside `gen_keys` or `get_ip` propagates: the add call halts. -/
def add_peer (env : AddPeerEnv) (peer : Peer) (peers : List Peer) :
    Outcome Unit × Peer × List Event :=
  match gen_keys env.keys with
  | .panic m => (.panic m, peer, [])
  | .err m => (.err m, peer, [])
  | .ok (private_key, public_key) =>
  let peer := { peer with private_key := some private_key,
                          public_key := some public_key }
  match get_ip peers with
  | none => (.panic "called Option::unwrap on a None value", peer,
      [Event.keygen private_key public_key])
  | some ip =>
  let peer := { peer with ip := some ip }
  let events := [Event.keygen private_key public_key, Event.alloc ip]
  match env.register.spawn with
  | .error why => (.err why, peer, events)
  | .ok () =>
  let events := events ++ [Event.register public_key ip]
  match env.register.wait with
  | .error why => (.err why, peer, events)
  | .ok _ => (.ok (), peer, events)

/-- Embedding of `remove_peer` (wireguard.rs lines 47-65).  The argument list
unwraps `peer.public_key` before the spawn; the exit status returned by
`wait()` is ignored (`Ok(_) => Ok(())`). -/
def remove_peer (env : CmdEnv) (peer : Peer) : Outcome Unit :=
  match peer.public_key with
  | none => .panic "called Option::unwrap on a None value"
  | some _ =>
  match env.spawn with
  | .error why => .err why
  | .ok () =>
  match env.wait with
  | .error why => .err why
  | .ok _ => .ok ()

/-- A `gen_keys` environment in which both subprocesses run and exit 0,
emitting newline-terminated keys on stdout. -/
def okKeysEnv : GenKeysEnv :=
  { genkey := { spawn := Except.ok (),
                wait := Except.ok { status := 0, stdout := "PRIV\n", stderr := "" } },
    pubkey := { spawn := Except.ok (),
                wait := Except.ok { status := 0, stdout := "PUB\n", stderr := "" } },
    pubkeyStdinWrite := Except.ok () }

/-- An `add_peer` environment in which key generation succeeds and the
register subprocess spawns, is waited on without error, and exits with the
non-zero status code 1. -/
def registerNonZeroEnv : AddPeerEnv :=
  { keys := okKeysEnv, register := { spawn := Except.ok (), wait := Except.ok 1 } }

/-- A freshly constructed peer: only `user_id` and `username` are set. -/
def peer0 : Peer :=
  { user_id := 42, username := "alice", public_key := none, private_key := none,
    ip := none, date := 0 }

/-- A fully provisioned peer (all optional fields set). -/
def peerWithKey : Peer :=
  { user_id := 7, username := "bob", public_key := some "PK",
    private_key := some "SK", ip := some (Ipv4Addr.mk 10 0 0 3), date := 0 }

/-- **C3 (counterexample).**  The register subprocess of `add_peer` exits
with the non-zero status 1, yet `add_peer` returns `Ok(())` to its caller:
the exit status of the register call is NOT checked (`Ok(_) => Ok(())`,
wireguard.rs line 43), so a non-zero exit is not treated as a failure. -/
theorem exit_status_ignored_counterexample :
    (add_peer registerNonZeroEnv peer0 []).1 = Outcome.ok () ∧
    registerNonZeroEnv.register.wait = Except.ok 1 ∧ (1 : Int) ≠ 0 :=
  ⟨rfl, rfl, by decide⟩

/-- **C3 (amended).**  Only the two `gen_keys` invocations (`wg genkey`,
`wg pubkey`) have their exit status checked (a non-zero status panics); the
register call of `add_peer` and the remove call of `remove_peer` ignore the
exit status: whenever their subprocess spawns and is waited on without error,
the operation returns `Ok` whatever the exit code. -/
theorem exit_status_checked_only_in_gen_keys :
    (∀ (kenv : GenKeysEnv) (out : ExecOutput),
        kenv.genkey.spawn = Except.ok () → kenv.genkey.wait = Except.ok out →
        out.status ≠ 0 →
        gen_keys kenv = Outcome.panic ("wg genkey finished with code " ++ out.stderr)) ∧
    (∀ (kenv : GenKeysEnv) (out pout : ExecOutput),
        kenv.genkey.spawn = Except.ok () → kenv.genkey.wait = Except.ok out →
        out.status = 0 →
        kenv.pubkey.spawn = Except.ok () → kenv.pubkeyStdinWrite = Except.ok () →
        kenv.pubkey.wait = Except.ok pout → pout.status ≠ 0 →
        gen_keys kenv = Outcome.panic ("wg pubkey finished with code " ++ pout.stderr)) ∧
    (∀ (env : AddPeerEnv) (peer : Peer) (peers : List Peer) (priv pub : String)
        (ip : Ipv4Addr) (c : Int),
        gen_keys env.keys = Outcome.ok (priv, pub) → get_ip peers = some ip →
        env.register.spawn = Except.ok () → env.register.wait = Except.ok c →
        (add_peer env peer peers).1 = Outcome.ok ()) ∧
    (∀ (cenv : CmdEnv) (peer : Peer) (pk : String) (c : Int),
        peer.public_key = some pk → cenv.spawn = Except.ok () →
        cenv.wait = Except.ok c → remove_peer cenv peer = Outcome.ok ()) := by
  refine ⟨?_, ?_, ?_, ?_⟩
  · intro kenv out h1 h2 h3
    simp [gen_keys, h1, h2, ExecOutput.success, h3]
  · intro kenv out pout h1 h2 h3 h4 h5 h6 h7
    simp [gen_keys, h1, h2, h3, h4, h5, h6, ExecOutput.success, h7]
  · intro env peer peers priv pub ip c h1 h2 h3 h4
    simp [add_peer, h1, h2, h3, h4]
  · intro cenv peer pk c h1 h2 h3
    simp [remove_peer, h1, h2, h3]

/-- Witness for the amended C3: concrete non-zero genkey exit, and concrete
register/remove calls exiting 1 that still return `Ok`. -/
theorem exit_status_checked_only_in_gen_keys_witness :
    gen_keys { genkey := { spawn := Except.ok (),
                           wait := Except.ok { status := 1, stdout := "", stderr := "boom" } },
               pubkey := { spawn := Except.ok (),
                           wait := Except.ok { status := 0, stdout := "PUB\n", stderr := "" } },
               pubkeyStdinWrite := Except.ok () }
      = Outcome.panic ("wg genkey finished with code " ++ "boom") ∧
    (add_peer registerNonZeroEnv peer0 []).1 = Outcome.ok () ∧
    remove_peer { spawn := Except.ok (), wait := Except.ok 1 } peerWithKey = Outcome.ok () :=
  ⟨exit_status_checked_only_in_gen_keys.1 _ _ rfl rfl (by decide),
   exit_status_checked_only_in_gen_keys.2.2.1 registerNonZeroEnv peer0 []
     "PRIV" "PUB" (Ipv4Addr.mk 10 0 0 2) 1 (by decide) rfl rfl rfl,
   exit_status_checked_only_in_gen_keys.2.2.2 _ peerWithKey "PK" 1 rfl rfl rfl⟩

/-- **C4.**  The register step of `add_peer` and the remove call of
`remove_peer` return an error (`SimpleError` from the spawn or wait failure,
the spec's `InterfaceError`) exactly when the executable cannot be spawned or
waiting on it errors; a spawnable subprocess that exits non-zero is not
distinguished from success: the call returns `Ok`. -/
theorem interface_error_iff_spawn_or_wait_fails
    (cenv : CmdEnv) (peer : Peer) (pk : String) (hpk : peer.public_key = some pk)
    (env : AddPeerEnv) (qpeer : Peer) (peers : List Peer) (priv pub : String)
    (ip : Ipv4Addr) (hkeys : gen_keys env.keys = Outcome.ok (priv, pub))
    (hip : get_ip peers = some ip) :
    ((∃ w, remove_peer cenv peer = Outcome.err w) ↔
       (∃ m, cenv.spawn = Except.error m) ∨ (∃ m, cenv.wait = Except.error m)) ∧
    (∀ c : Int, cenv.spawn = Except.ok () → cenv.wait = Except.ok c →
       remove_peer cenv peer = Outcome.ok ()) ∧
    ((∃ w, (add_peer env qpeer peers).1 = Outcome.err w) ↔
       (∃ m, env.register.spawn = Except.error m) ∨
       (∃ m, env.register.wait = Except.error m)) ∧
    (∀ c : Int, env.register.spawn = Except.ok () → env.register.wait = Except.ok c →
       (add_peer env qpeer peers).1 = Outcome.ok ()) := by
  refine ⟨?_, ?_, ?_, ?_⟩
  · cases hs : cenv.spawn with
    | error m => simp [remove_peer, hpk, hs]
    | ok u =>
      cases u
      cases hw : cenv.wait with
      | error m => simp [remove_peer, hpk, hs, hw]
      | ok c => simp [remove_peer, hpk, hs, hw]
  · intro c h1 h2
    simp [remove_peer, hpk, h1, h2]
  · cases hs : env.register.spawn with
    | error m => simp [add_peer, hkeys, hip, hs]
    | ok u =>
      cases u
      cases hw : env.register.wait with
      | error m => simp [add_peer, hkeys, hip, hs, hw]
      | ok c => simp [add_peer, hkeys, hip, hs, hw]
  · intro c h1 h2
    simp [add_peer, hkeys, hip, h1, h2]

/-- Witness for C4 at concrete inputs: register exits 1 yet `add_peer`
returns `Ok`, and a failing spawn yields an error from `remove_peer`. -/
theorem interface_error_iff_spawn_or_wait_fails_witness :
    ((∃ w, remove_peer { spawn := Except.error "ENOENT", wait := Except.ok 0 } peerWithKey
        = Outcome.err w) ↔
       (∃ m, (Except.error "ENOENT" : Except String Unit) = Except.error m) ∨
       (∃ m, (Except.ok 0 : Except String Int) = Except.error m)) ∧
    (add_peer registerNonZeroEnv peer0 []).1 = Outcome.ok () :=
  ⟨(interface_error_iff_spawn_or_wait_fails
      { spawn := Except.error "ENOENT", wait := Except.ok 0 } peerWithKey "PK" rfl
      registerNonZeroEnv peer0 [] "PRIV" "PUB" (Ipv4Addr.mk 10 0 0 2) (by decide) rfl).1,
   (interface_error_iff_spawn_or_wait_fails
      { spawn := Except.error "ENOENT", wait := Except.ok 0 } peerWithKey "PK" rfl
      registerNonZeroEnv peer0 [] "PRIV" "PUB" (Ipv4Addr.mk 10 0 0 2) (by decide) rfl).2.2.2
      1 rfl rfl⟩

/-- An `add_peer` environment in which the `wg genkey` executable cannot be
spawned; everything downstream would have succeeded. -/
def genkeySpawnFailEnv : AddPeerEnv :=
  { keys := { genkey := { spawn := Except.error "No such file or directory (os error 2)",
                          wait := Except.ok { status := 0, stdout := "", stderr := "" } },
              pubkey := { spawn := Except.ok (),
                          wait := Except.ok { status := 0, stdout := "", stderr := "" } },
              pubkeyStdinWrite := Except.ok () },
    register := { spawn := Except.ok (), wait := Except.ok 0 } }

/-- **C5 (counterexample).**  With the key-generation primitive missing, the
add call does NOT surface an error to its caller: `gen_keys` has no error
channel (it returns a plain tuple) and `panic!`s, so `add_peer` halts.  The
outcome is a panic, and no `Err` value is produced. -/
theorem keygen_failure_not_an_error_counterexample :
    (add_peer genkeySpawnFailEnv peer0 []).1 =
      Outcome.panic "Could not run wg genkey: No such file or directory (os error 2)" ∧
    ∀ w, (add_peer genkeySpawnFailEnv peer0 []).1 ≠ Outcome.err w := by
  have h1 : (add_peer genkeySpawnFailEnv peer0 []).1 =
      Outcome.panic "Could not run wg genkey: No such file or directory (os error 2)" := rfl
  exact ⟨h1, fun w hw => by rw [h1] at hw; exact Outcome.noConfusion hw⟩

/-- An `add_peer` environment in which `wg genkey` succeeds but the
`wg pubkey` executable cannot be spawned. -/
def pubkeySpawnFailEnv : AddPeerEnv :=
  { keys := { genkey := { spawn := Except.ok (),
                          wait := Except.ok { status := 0, stdout := "PRIV\n", stderr := "" } },
              pubkey := { spawn := Except.error "No such file or directory (os error 2)",
                          wait := Except.ok { status := 0, stdout := "", stderr := "" } },
              pubkeyStdinWrite := Except.ok () },
    register := { spawn := Except.ok (), wait := Except.ok 0 } }

/-- **C5 (amended).**  When either key-generation step (the private-key
derivation `wg genkey` or the public-key derivation `wg pubkey`) cannot
invoke the external primitive or the primitive exits non-zero, `gen_keys`
`panic!`s with a step-distinguishing message and the whole `add_peer` call
halts: the failure is never surfaced as an error value to the caller.  The
four failure modes of the claim are the four conjuncts; the last conjunct
states that a halted call yields no `Err`. -/
theorem keygen_failure_panics_add_call (env : AddPeerEnv) (peer : Peer)
    (peers : List Peer) :
    (∀ m, env.keys.genkey.spawn = Except.error m →
       (add_peer env peer peers).1 = Outcome.panic ("Could not run wg genkey: " ++ m)) ∧
    (∀ out, env.keys.genkey.spawn = Except.ok () →
       env.keys.genkey.wait = Except.ok out → out.status ≠ 0 →
       (add_peer env peer peers).1 =
         Outcome.panic ("wg genkey finished with code " ++ out.stderr)) ∧
    (∀ out m, env.keys.genkey.spawn = Except.ok () →
       env.keys.genkey.wait = Except.ok out → out.status = 0 →
       env.keys.pubkey.spawn = Except.error m →
       (add_peer env peer peers).1 = Outcome.panic ("Could not run wg pubkey: " ++ m)) ∧
    (∀ out pout, env.keys.genkey.spawn = Except.ok () →
       env.keys.genkey.wait = Except.ok out → out.status = 0 →
       env.keys.pubkey.spawn = Except.ok () →
       env.keys.pubkeyStdinWrite = Except.ok () →
       env.keys.pubkey.wait = Except.ok pout → pout.status ≠ 0 →
       (add_peer env peer peers).1 =
         Outcome.panic ("wg pubkey finished with code " ++ pout.stderr)) ∧
    (∀ m w, (add_peer env peer peers).1 = Outcome.panic m →
       (add_peer env peer peers).1 ≠ Outcome.err w) := by
  refine ⟨?_, ?_, ?_, ?_, ?_⟩
  · intro m hm
    simp [add_peer, gen_keys, hm]
  · intro out h1 h2 h3
    simp [add_peer, gen_keys, h1, h2, ExecOutput.success, h3]
  · intro out m h1 h2 h3 h4
    simp [add_peer, gen_keys, h1, h2, h3, h4, ExecOutput.success]
  · intro out pout h1 h2 h3 h4 h5 h6 h7
    simp [add_peer, gen_keys, h1, h2, h3, h4, h5, h6, ExecOutput.success, h7]
  · intro m w hm hw
    rw [hm] at hw
    exact Outcome.noConfusion hw

/-- Witness for the amended C5 at two concrete missing-executable
environments: one failing at the genkey step, one at the pubkey step. -/
theorem keygen_failure_panics_add_call_witness :
    (add_peer genkeySpawnFailEnv peer0 []).1 =
      Outcome.panic ("Could not run wg genkey: " ++ "No such file or directory (os error 2)") ∧
    (add_peer pubkeySpawnFailEnv peer0 []).1 =
      Outcome.panic ("Could not run wg pubkey: " ++ "No such file or directory (os error 2)") :=
  ⟨(keygen_failure_panics_add_call genkeySpawnFailEnv peer0 []).1
    "No such file or directory (os error 2)" rfl,
   (keygen_failure_panics_add_call pubkeySpawnFailEnv peer0 []).2.2.1
    { status := 0, stdout := "PRIV\n", stderr := "" }
    "No such file or directory (os error 2)" rfl rfl rfl rfl⟩

/-- **C6.**  In every execution of `add_peer` the external steps happen in
the fixed order key generation, address allocation, interface registration
(the trace is always a prefix of that three-step sequence — no step skipped
or reordered), and whenever the registration step is reached, the public key
and address it registers are exactly the values stored in the mutated peer,
whose `public_key` and `ip` fields are therefore both set at that point. -/
theorem add_peer_step_order (env : AddPeerEnv) (peer : Peer) (peers : List Peer) :
    ((add_peer env peer peers).2.2 = [] ∨
     (∃ p q, (add_peer env peer peers).2.2 = [Event.keygen p q]) ∨
     (∃ p q i, (add_peer env peer peers).2.2 = [Event.keygen p q, Event.alloc i]) ∨
     (∃ p q i, (add_peer env peer peers).2.2 =
        [Event.keygen p q, Event.alloc i, Event.register q i])) ∧
    (∀ q i, Event.register q i ∈ (add_peer env peer peers).2.2 →
       (add_peer env peer peers).2.1.public_key = some q ∧
       (add_peer env peer peers).2.1.ip = some i) := by
  cases hk : gen_keys env.keys with
  | panic m =>
    constructor
    · left
      simp [add_peer, hk]
    · intro q i hmem
      simp [add_peer, hk] at hmem
  | err m =>
    constructor
    · left
      simp [add_peer, hk]
    · intro q i hmem
      simp [add_peer, hk] at hmem
  | ok pq =>
    obtain ⟨priv, pub⟩ := pq
    cases hip : get_ip peers with
    | none =>
      constructor
      · right; left
        exact ⟨priv, pub, by simp [add_peer, hk, hip]⟩
      · intro q i hmem
        simp [add_peer, hk, hip] at hmem
    | some ip =>
      cases hs : env.register.spawn with
      | error m =>
        constructor
        · right; right; left
          exact ⟨priv, pub, ip, by simp [add_peer, hk, hip, hs]⟩
        · intro q i hmem
          simp [add_peer, hk, hip, hs] at hmem
      | ok u =>
        cases u
        cases hw : env.register.wait with
        | error m =>
          constructor
          · right; right; right
            exact ⟨priv, pub, ip, by simp [add_peer, hk, hip, hs, hw]⟩
          · intro q i hmem
            simp [add_peer, hk, hip, hs, hw] at hmem
            obtain ⟨rfl, rfl⟩ := hmem
            simp [add_peer, hk, hip, hs, hw]
        | ok c =>
          constructor
          · right; right; right
            exact ⟨priv, pub, ip, by simp [add_peer, hk, hip, hs, hw]⟩
          · intro q i hmem
            simp [add_peer, hk, hip, hs, hw] at hmem
            obtain ⟨rfl, rfl⟩ := hmem
            simp [add_peer, hk, hip, hs, hw]

/-- Witness for C6: in a concrete successful run the trace is the full
three-step sequence and the registered key and address are the peer's. -/
theorem add_peer_step_order_witness :
    (add_peer registerNonZeroEnv peer0 []).2.1.public_key = some "PUB" ∧
    (add_peer registerNonZeroEnv peer0 []).2.1.ip = some (Ipv4Addr.mk 10 0 0 2) :=
  (add_peer_step_order registerNonZeroEnv peer0 []).2 "PUB" (Ipv4Addr.mk 10 0 0 2)
    (by decide)

/-- **C10.**  `remove_peer` unconditionally unwraps `peer.public_key` while
building the subprocess argument list: on a peer whose `public_key` is `None`
it panics instead of returning an error, and when `public_key` is `Some` the
unwrap branch is unreachable — the call never panics (it returns `Ok` or an
`Err` from spawn/wait). -/
theorem remove_peer_unwraps_public_key (cenv : CmdEnv) (peer : Peer) :
    (peer.public_key = none →
       remove_peer cenv peer = Outcome.panic "called Option::unwrap on a None value") ∧
    (∀ pk, peer.public_key = some pk →
       ∀ m, remove_peer cenv peer ≠ Outcome.panic m) := by
  constructor
  · intro h
    simp [remove_peer, h]
  · intro pk h m
    cases hs : cenv.spawn with
    | error w => simp [remove_peer, h, hs]
    | ok u =>
      cases u
      cases hw : cenv.wait with
      | error w => simp [remove_peer, h, hs, hw]
      | ok c => simp [remove_peer, h, hs, hw]

/-- Witness for C10: a keyless peer panics, a keyed peer does not. -/
theorem remove_peer_unwraps_public_key_witness :
    remove_peer { spawn := Except.ok (), wait := Except.ok 0 } peer0 =
      Outcome.panic "called Option::unwrap on a None value" ∧
    ∀ m, remove_peer { spawn := Except.ok (), wait := Except.ok 0 } peerWithKey ≠
      Outcome.panic m :=
  ⟨(remove_peer_unwraps_public_key _ peer0).1 rfl,
   fun m => (remove_peer_unwraps_public_key _ peerWithKey).2 "PK" rfl m⟩

/-- Embedding of a configparser `Ini` map (`Ini::new_cs()`; case-sensitive,
which this model is trivially): a sequence of assignments of an optional
value to a (section, key) slot.  `get` returns the value of the most recent
assignment of the slot, and `none` both for a slot never assigned and for a
slot assigned the value `None` (configparser stores `Option<String>` values
and `get` clones the stored option). -/
abbrev IniMap := List ((String × String) × Option String)

/-- `Ini::set(section, key, value)`. -/
def IniMap.set (c : IniMap) (sec key : String) (v : Option String) : IniMap :=
  c ++ [((sec, key), v)]

/-- `Ini::get(section, key)`. -/
def IniMap.get (c : IniMap) (sec key : String) : Option String :=
  (c.reverse.find? fun e => decide (e.1 = (sec, key))).bind fun e => e.2

/-- The document `gen_conf` builds (wireguard.rs lines 68-112), given the
unwrapped `private_key` and `ip` of the peer and the settings source `conf`:
the seven `config.set` calls in source order, with the source's defaults
(`16.to_string()`, `"8.8.8.8"`, `25.to_string()`) for absent settings and no
default for the `Key` and `Endpoint` settings. -/
def render_conf (private_key : String) (ip : Ipv4Addr) (conf : IniMap) : IniMap :=
  let c := IniMap.set [] "Interface" "PrivateKey" (some private_key)
  let c := IniMap.set c "Interface" "Address"
    (some (ip.render ++ "/" ++ ((IniMap.get conf "Peer" "Subnet").getD "16")))
  let c := IniMap.set c "Interface" "DNS"
    (some ((IniMap.get conf "Peer" "DNS").getD "8.8.8.8"))
  let c := IniMap.set c "Peer" "PublicKey" (IniMap.get conf "Peer" "Key")
  let c := IniMap.set c "Peer" "Endpoint" (IniMap.get conf "Peer" "Endpoint")
  let c := IniMap.set c "Peer" "AllowedIPs" (some "0.0.0.0/0")
  let c := IniMap.set c "Peer" "PersistentKeepalive"
    (some ((IniMap.get conf "Peer" "KeepAlive").getD "25"))
  c

/-- Environment of one `gen_conf` call: the result of `dirs::home_dir()`
(which the source `.unwrap()`s) and the outcome `config.write(path)` would
have for a given path and document. -/
structure GenConfEnv where
  home_dir : Option String
  write : String → IniMap → Except String Unit

/-- Embedding of `gen_conf` (wireguard.rs lines 67-125).  The source unwraps
`peer.private_key` (line 72) then `peer.ip` (line 79) while building the
document, unwraps the home directory (line 115) while building the artifact
path `<home>/<username>.conf`, and finally writes; a write failure is logged
and returned as `Err` (the spec's `IoError`), success returns the path. -/
def gen_conf (env : GenConfEnv) (peer : Peer) (conf : IniMap) : Outcome String :=
  match peer.private_key with
  | none => .panic "called Option::unwrap on a None value"
  | some private_key =>
  match peer.ip with
  | none => .panic "called Option::unwrap on a None value"
  | some ip =>
  let config := render_conf private_key ip conf
  match env.home_dir with
  | none => .panic "called Option::unwrap on a None value"
  | some home =>
  let config_path := home ++ "/" ++ peer.username ++ ".conf"
  match env.write config_path config with
  | .error why => .err why
  | .ok () => .ok config_path

/-- **C7.**  For every peer with all fields set, the document `gen_conf`
renders contains an `Interface` section with the peer's private key, the
peer's address suffixed with the `Subnet` setting (default `16` when absent)
and the `DNS` setting (default `8.8.8.8` when absent), and a `Peer` section
with the `Key` and `Endpoint` settings (unset when absent, no default), the
catch-all range `0.0.0.0/0`, and the `KeepAlive` setting (default `25` when
absent); the final conjunct ties the document to `gen_conf` itself: the call
writes exactly `render_conf priv ip conf` at `<home>/<username>.conf`. -/
theorem gen_conf_renders_expected_document (peer : Peer) (conf : IniMap)
    (priv : String) (ip : Ipv4Addr)
    (hpriv : peer.private_key = some priv) (hip : peer.ip = some ip) :
    IniMap.get (render_conf priv ip conf) "Interface" "PrivateKey" = some priv ∧
    IniMap.get (render_conf priv ip conf) "Interface" "Address" =
      some (ip.render ++ "/" ++ ((IniMap.get conf "Peer" "Subnet").getD "16")) ∧
    IniMap.get (render_conf priv ip conf) "Interface" "DNS" =
      some ((IniMap.get conf "Peer" "DNS").getD "8.8.8.8") ∧
    IniMap.get (render_conf priv ip conf) "Peer" "PublicKey" =
      IniMap.get conf "Peer" "Key" ∧
    IniMap.get (render_conf priv ip conf) "Peer" "Endpoint" =
      IniMap.get conf "Peer" "Endpoint" ∧
    IniMap.get (render_conf priv ip conf) "Peer" "AllowedIPs" = some "0.0.0.0/0" ∧
    IniMap.get (render_conf priv ip conf) "Peer" "PersistentKeepalive" =
      some ((IniMap.get conf "Peer" "KeepAlive").getD "25") ∧
    (∀ (env : GenConfEnv) (home : String), env.home_dir = some home →
       gen_conf env peer conf =
         match env.write (home ++ "/" ++ peer.username ++ ".conf")
             (render_conf priv ip conf) with
         | Except.error why => Outcome.err why
         | Except.ok _ => Outcome.ok (home ++ "/" ++ peer.username ++ ".conf")) := by
  refine ⟨?_, ?_, ?_, ?_, ?_, ?_, ?_, ?_⟩
  · simp [render_conf, IniMap.set, IniMap.get]
  · simp [render_conf, IniMap.set, IniMap.get]
  · simp [render_conf, IniMap.set, IniMap.get]
  · simp [render_conf, IniMap.set, IniMap.get]
  · simp [render_conf, IniMap.set, IniMap.get]
  · simp [render_conf, IniMap.set, IniMap.get]
  · simp [render_conf, IniMap.set, IniMap.get]
  · intro env home hh
    cases hw : env.write (home ++ "/" ++ peer.username ++ ".conf")
        (render_conf priv ip conf) with
    | error why => simp [gen_conf, hpriv, hip, hh, hw]
    | ok u =>
      cases u
      simp [gen_conf, hpriv, hip, hh, hw]

/-- Witness for C7 at a fully provisioned peer and the empty settings
source: the defaults 16, 8.8.8.8 and 25 are taken, `Key`/`Endpoint` stay
unset, and the private key and catch-all range appear verbatim. -/
theorem gen_conf_renders_expected_document_witness :
    IniMap.get (render_conf "SK" (Ipv4Addr.mk 10 0 0 3) []) "Interface" "PrivateKey" =
      some "SK" ∧
    IniMap.get (render_conf "SK" (Ipv4Addr.mk 10 0 0 3) []) "Interface" "Address" =
      some ((Ipv4Addr.mk 10 0 0 3).render ++ "/" ++
        ((IniMap.get [] "Peer" "Subnet").getD "16")) ∧
    IniMap.get (render_conf "SK" (Ipv4Addr.mk 10 0 0 3) []) "Interface" "DNS" =
      some ((IniMap.get [] "Peer" "DNS").getD "8.8.8.8") ∧
    IniMap.get (render_conf "SK" (Ipv4Addr.mk 10 0 0 3) []) "Peer" "PublicKey" =
      IniMap.get [] "Peer" "Key" ∧
    IniMap.get (render_conf "SK" (Ipv4Addr.mk 10 0 0 3) []) "Peer" "AllowedIPs" =
      some "0.0.0.0/0" ∧
    IniMap.get (render_conf "SK" (Ipv4Addr.mk 10 0 0 3) []) "Peer" "PersistentKeepalive" =
      some ((IniMap.get [] "Peer" "KeepAlive").getD "25") :=
  ⟨(gen_conf_renders_expected_document peerWithKey [] "SK" (Ipv4Addr.mk 10 0 0 3)
      rfl rfl).1,
   (gen_conf_renders_expected_document peerWithKey [] "SK" (Ipv4Addr.mk 10 0 0 3)
      rfl rfl).2.1,
   (gen_conf_renders_expected_document peerWithKey [] "SK" (Ipv4Addr.mk 10 0 0 3)
      rfl rfl).2.2.1,
   (gen_conf_renders_expected_document peerWithKey [] "SK" (Ipv4Addr.mk 10 0 0 3)
      rfl rfl).2.2.2.1,
   (gen_conf_renders_expected_document peerWithKey [] "SK" (Ipv4Addr.mk 10 0 0 3)
      rfl rfl).2.2.2.2.2.1,
   (gen_conf_renders_expected_document peerWithKey [] "SK" (Ipv4Addr.mk 10 0 0 3)
      rfl rfl).2.2.2.2.2.2.1⟩

/-- **C8.**  `gen_conf` writes the rendered document to
`<home-directory>/<username>.conf`, returns that path on success, and
returns the write error (the spec's `IoError`) exactly when writing fails. -/
theorem gen_conf_path_and_io_error (env : GenConfEnv) (peer : Peer)
    (conf : IniMap) (home priv : String) (ip : Ipv4Addr)
    (hh : env.home_dir = some home) (hpriv : peer.private_key = some priv)
    (hip : peer.ip = some ip) :
    (env.write (home ++ "/" ++ peer.username ++ ".conf") (render_conf priv ip conf) =
        Except.ok () →
      gen_conf env peer conf = Outcome.ok (home ++ "/" ++ peer.username ++ ".conf")) ∧
    (∀ why, env.write (home ++ "/" ++ peer.username ++ ".conf")
        (render_conf priv ip conf) = Except.error why →
      gen_conf env peer conf = Outcome.err why) ∧
    (∀ w, gen_conf env peer conf = Outcome.err w →
      env.write (home ++ "/" ++ peer.username ++ ".conf") (render_conf priv ip conf) =
        Except.error w) := by
  refine ⟨?_, ?_, ?_⟩
  · intro hw
    simp [gen_conf, hpriv, hip, hh, hw]
  · intro why hw
    simp [gen_conf, hpriv, hip, hh, hw]
  · intro w hw
    cases hv : env.write (home ++ "/" ++ peer.username ++ ".conf")
        (render_conf priv ip conf) with
    | error why =>
      simp [gen_conf, hpriv, hip, hh, hv] at hw
      rw [hw]
    | ok u =>
      cases u
      simp [gen_conf, hpriv, hip, hh, hv] at hw

/-- A `gen_conf` environment with a home directory and a succeeding write. -/
def okConfEnv : GenConfEnv :=
  { home_dir := some "/home/wg", write := fun _ _ => Except.ok () }

/-- Witness for C8: the concrete path `/home/wg/bob.conf` is returned. -/
theorem gen_conf_path_and_io_error_witness :
    gen_conf okConfEnv peerWithKey [] =
      Outcome.ok ("/home/wg" ++ "/" ++ peerWithKey.username ++ ".conf") :=
  (gen_conf_path_and_io_error okConfEnv peerWithKey [] "/home/wg" "SK"
    (Ipv4Addr.mk 10 0 0 3) rfl rfl rfl).1 rfl

/-- **C9.**  `gen_conf` unconditionally unwraps `private_key` and `ip`: if
either is `None` the call panics instead of returning an error, and under
the precondition that both are `Some` (and the home directory, which the
source also unwraps, exists) the call never panics: it returns the path or
an `Err`. -/
theorem gen_conf_requires_private_key_and_ip (env : GenConfEnv) (peer : Peer)
    (conf : IniMap) :
    ((peer.private_key = none ∨ peer.ip = none) →
       gen_conf env peer conf = Outcome.panic "called Option::unwrap on a None value") ∧
    (∀ priv ip home, peer.private_key = some priv → peer.ip = some ip →
       env.home_dir = some home → ∀ m, gen_conf env peer conf ≠ Outcome.panic m) := by
  constructor
  · intro h
    cases hp : peer.private_key with
    | none => simp [gen_conf, hp]
    | some priv =>
      cases h with
      | inl h => rw [hp] at h; exact Option.noConfusion h
      | inr h => simp [gen_conf, hp, h]
  · intro priv ip home hpriv hip hh m
    cases hw : env.write (home ++ "/" ++ peer.username ++ ".conf")
        (render_conf priv ip conf) with
    | error why => simp [gen_conf, hpriv, hip, hh, hw]
    | ok u =>
      cases u
      simp [gen_conf, hpriv, hip, hh, hw]

/-- Witness for C9: the fresh peer (no keys, no address) panics; the fully
provisioned peer does not panic. -/
theorem gen_conf_requires_private_key_and_ip_witness :
    gen_conf okConfEnv peer0 [] =
      Outcome.panic "called Option::unwrap on a None value" ∧
    gen_conf okConfEnv peerWithKey [] ≠
      Outcome.panic "called Option::unwrap on a None value" :=
  ⟨(gen_conf_requires_private_key_and_ip okConfEnv peer0 []).1 (Or.inl rfl),
   (gen_conf_requires_private_key_and_ip okConfEnv peerWithKey []).2 "SK"
     (Ipv4Addr.mk 10 0 0 3) "/home/wg" rfl rfl rfl
     "called Option::unwrap on a None value"⟩
